import Mathlib

/-!
Verification of the CIVI-Connect frontend screens (report submission,
voice-enabled report submission, admin dashboard, home/map view) against
their natural-language specification.  Each screen's state handling and
HTTP-request construction is embedded shallowly as executable Lean
definitions translated from the TypeScript source, and the spec's claims
are settled as theorems over those definitions.
-/

namespace CiviConnect

/-- A cached logged-in user, as parsed from the device key-value store
(`AsyncStorage.getItem('user')`). -/
structure User where
  id : Nat
  name : String
  role : String
  department : String
deriving Repr, DecidableEq

/-- An outgoing HTTP request: method, full URL, and the optional
`Authorization` header value. -/
structure Request where
  method : String
  url : String
  auth : Option String
deriving Repr, DecidableEq

/-- One part of a multipart form body: either a plain text field or a file
attachment `{uri, type, name}`. -/
inductive FormPart
  | text (s : String)
  | file (uri mime name : String)
deriving Repr, DecidableEq

/-- What a press of the submit button does before any response arrives:
either a client-side rejection surfaced as an alert, or an issued POST with
its multipart body. -/
inductive SubmitStep
  | alert (title msg : String)
  | post (req : Request) (body : List (String × FormPart))
deriving Repr, DecidableEq

/-- Whether a `SubmitStep` issued the POST. -/
def SubmitStep.isPost : SubmitStep → Bool
  | .post _ _ => true
  | .alert _ _ => false

/-- Hex digit (uppercase) of a value below 16, as produced by
`encodeURIComponent`. -/
def hexDigit (n : Nat) : Char :=
  if n < 10 then Char.ofNat (48 + n) else Char.ofNat (55 + n)

/-- UTF-8 bytes of a Unicode code point. -/
def utf8BytesOf (n : Nat) : List Nat :=
  if n < 128 then [n]
  else if n < 2048 then [192 + n / 64, 128 + n % 64]
  else if n < 65536 then [224 + n / 4096, 128 + (n / 64) % 64, 128 + n % 64]
  else [240 + n / 262144, 128 + (n / 4096) % 64, 128 + (n / 64) % 64, 128 + n % 64]

/-- Characters left unescaped by JavaScript's `encodeURIComponent`:
`A-Z a-z 0-9 - _ . ! ~ * ' ( )`. -/
def isUnreservedChar (c : Char) : Bool :=
  (65 ≤ c.toNat && c.toNat ≤ 90) || (97 ≤ c.toNat && c.toNat ≤ 122) ||
  (48 ≤ c.toNat && c.toNat ≤ 57) ||
  c == '-' || c == '_' || c == '.' || c == '!' || c == '~' || c == '*' ||
  c == Char.ofNat 39 || c == '(' || c == ')'

/-- JavaScript's `encodeURIComponent`: unreserved characters pass through,
every other character is percent-encoded byte by byte (UTF-8, uppercase
hex). -/
def encodeURIComponent (s : String) : String :=
  String.join (s.data.map fun c =>
    if isUnreservedChar c then String.singleton c
    else String.join ((utf8BytesOf c.toNat).map fun b =>
      String.mk ['%', hexDigit (b / 16), hexDigit (b % 16)]))

/-- The issue-list URL built by `loadAllIssues` in `admin.tsx`:
`${API_BASE_URL}/api/issues`, with `?search=${encodeURIComponent(q)}`
appended when the search query is non-empty (JS truthiness of a string). -/
def issuesUrl (base q : String) : String :=
  if q = "" then base ++ "/api/issues"
  else base ++ "/api/issues" ++ "?search=" ++ encodeURIComponent q

/-- The admin stats URL `${API_BASE_URL}/api/admin/stats`. -/
def statsUrl (base : String) : String := base ++ "/api/admin/stats"

/-- JavaScript's `String.prototype.trim`: strip whitespace from both ends. -/
def trimString (s : String) : String :=
  String.mk (((s.data.dropWhile Char.isWhitespace).reverse.dropWhile
    Char.isWhitespace).reverse)

/-- The file extension extracted by `submitReport` for the photo part:
`capturedPhoto.split('.')` and take the last element. -/
def fileTypeOf (uri : String) : String := (uri.splitOn ".").getLastD ""

/-- The optional `image` part of the multipart body: present exactly when a
photo was captured, as `{uri, type: image/<ext>, name: issue-photo.<ext>}`. -/
def imageParts (photo : Option String) : List (String × FormPart) :=
  match photo with
  | some uri =>
      [("image", .file uri ("image/" ++ fileTypeOf uri)
        ("issue-photo." ++ fileTypeOf uri))]
  | none => []

namespace Report0

/-- Form state of the plain report screen (`IssueFormData`). -/
structure FormData0 where
  title : String
  description : String
  issue_type : String
  latitude : Int
  longitude : Int
  accuracy : Int
deriving Repr, DecidableEq

/-- Initial form state of the plain report screen. -/
def initFormData0 : FormData0 :=
  { title := "", description := "", issue_type := "",
    latitude := 0, longitude := 0, accuracy := 0 }

/-- Multipart body assembled by `submitReport` in the plain report screen:
title, description, issue_type, stringified coordinates, optional image. -/
def postBody0 (fd : FormData0) (photo : Option String) :
    List (String × FormPart) :=
  [("title", .text fd.title), ("description", .text fd.description),
   ("issue_type", .text fd.issue_type),
   ("latitude", .text (toString fd.latitude)),
   ("longitude", .text (toString fd.longitude)),
   ("accuracy", .text (toString fd.accuracy))]
  ++ imageParts photo

/-- `submitReport` of the plain report screen, up to issuing the POST:
rejects with an authentication alert when no user is cached, with a
missing-information alert when `title.trim()` or `issue_type` is empty,
and otherwise POSTs the multipart body to `${API_BASE_URL}/api/issues`
with a bearer token. -/
def submitReport0 (user : Option User) (fd : FormData0) (photo : Option String)
    (base tok : String) : SubmitStep :=
  if user.isNone then
    .alert "Authentication Required" "Please login to submit a report"
  else if trimString fd.title = "" ∨ fd.issue_type = "" then
    .alert "Missing Information" "Please fill in all required fields"
  else
    .post ⟨"POST", base ++ "/api/issues", some ("Bearer " ++ tok)⟩
      (postBody0 fd photo)

/-- The `disabled` prop of the plain report screen's submit button:
`loading || !formData.title || !formData.issue_type`. -/
def submitDisabled0 (loading : Bool) (fd : FormData0) : Bool :=
  loading || fd.title == "" || fd.issue_type == ""

/-- Component state of the plain report screen relevant to permission,
photo and submission handling, together with the accumulated alerts and
outgoing requests of the interaction so far. -/
structure RState where
  hasCameraPermission : Option Bool
  cameraVisible : Bool
  capturedPhoto : Option String
  location : Option (Int × Int × Int)
  user : Option User
  formData : FormData0
  alerts : List (String × String)
  requests : List Request
deriving Repr, DecidableEq

/-- Initial component state of the plain report screen. -/
def initRState : RState :=
  { hasCameraPermission := none, cameraVisible := false, capturedPhoto := none,
    location := none, user := none, formData := initFormData0,
    alerts := [], requests := [] }

/-- User-facing and asynchronous events of the plain report screen. -/
inductive REvent
  | cameraPermissionResult (status : String)
  | locationResult (status : String) (lat lng acc : Int)
  | userLoaded (userData : Option User)
  | setIssueType (v : String)
  | setTitle (v : String)
  | setDescription (v : String)
  | pressTakePhoto
  | pictureTaken (uri : String)
  | pressRemovePhoto
  | pressSubmit (tok : String)

/-- One event step of the plain report screen, translated handler by
handler from the source: `getCameraPermissions` records the permission,
`getLocationPermissions` alerts on denial and otherwise stores the
coordinates into the form, `loadUser` stores the cached user or alerts,
the type/title/description setters patch the form, the Take Photo option
sets `cameraVisible` unconditionally, `takePicture` stores the photo URI
while the camera is mounted, and pressing submit runs `submitReport` when
the button is not disabled. -/
def rstep (base : String) (s : RState) : REvent → RState
  | .cameraPermissionResult status =>
      { s with hasCameraPermission := some (status = "granted") }
  | .locationResult status lat lng acc =>
      if status ≠ "granted" then
        { s with alerts := s.alerts ++
            [("Permission denied", "Location permission is required")] }
      else
        { s with location := some (lat, lng, acc),
                 formData := { s.formData with
                   latitude := lat, longitude := lng, accuracy := acc } }
  | .userLoaded userData =>
      match userData with
      | some u => { s with user := some u }
      | none => { s with alerts := s.alerts ++
          [("Authentication Required", "Please login to report an issue")] }
  | .setIssueType v => { s with formData := { s.formData with issue_type := v } }
  | .setTitle v => { s with formData := { s.formData with title := v } }
  | .setDescription v =>
      { s with formData := { s.formData with description := v } }
  | .pressTakePhoto => { s with cameraVisible := true }
  | .pictureTaken uri =>
      if s.cameraVisible then
        { s with capturedPhoto := some uri, cameraVisible := false }
      else s
  | .pressRemovePhoto => { s with capturedPhoto := none }
  | .pressSubmit tok =>
      if submitDisabled0 false s.formData then s
      else
        match submitReport0 s.user s.formData s.capturedPhoto base tok with
        | .alert t m => { s with alerts := s.alerts ++ [(t, m)] }
        | .post req _ => { s with requests := s.requests ++ [req] }

/-- Run a list of events through the plain report screen. -/
def runR (base : String) (s : RState) : List REvent → RState
  | [] => s
  | e :: es => runR base (rstep base s e) es

end Report0

namespace Report1

/-- Form state of the voice-enabled report screen, with the machine
translation of the description. -/
structure FormData1 where
  title : String
  description : String
  translated : String
  issue_type : String
  latitude : Int
  longitude : Int
  accuracy : Int
deriving Repr, DecidableEq

/-- `handleTranslate` of the voice-enabled report screen, applied to the
form.  `text` is the description passed in by the translation effect and
`result` the outcome of the `translate` call (`none` models the call
throwing).  Blank text clears the translated field without calling
`translate`; a successful call stores its result; a failed call stores the
original text unchanged. -/
def handleTranslate (fd : FormData1) (text : String) (result : Option String) :
    FormData1 :=
  if trimString text = "" then { fd with translated := "" }
  else
    match result with
    | some tr => { fd with translated := tr }
    | none => { fd with translated := text }

/-- Multipart body assembled by `submitReport` in the voice-enabled
variant: the `description` field carries the translated text. -/
def postBody1 (fd : FormData1) (photo : Option String) :
    List (String × FormPart) :=
  [("title", .text fd.title), ("description", .text fd.translated),
   ("issue_type", .text fd.issue_type),
   ("latitude", .text (toString fd.latitude)),
   ("longitude", .text (toString fd.longitude)),
   ("accuracy", .text (toString fd.accuracy))]
  ++ imageParts photo

/-- `submitReport` of the voice-enabled report screen, up to issuing the
POST: rejects without a cached user, rejects with a missing-information
alert when `issue_type`, `description.trim()` or `translated.trim()` is
empty, and otherwise POSTs to `${API_BASE_URL}/api/issues`. -/
def submitReport1 (user : Option User) (fd : FormData1) (photo : Option String)
    (base tok : String) : SubmitStep :=
  if user.isNone then
    .alert "Authentication Required" "Please login to submit a report"
  else if fd.issue_type = "" ∨ trimString fd.description = "" ∨
      trimString fd.translated = "" then
    .alert "Missing Information" "Please fill in all required fields"
  else
    .post ⟨"POST", base ++ "/api/issues", some ("Bearer " ++ tok)⟩
      (postBody1 fd photo)

/-- The `disabled` prop of the voice-enabled screen's submit button:
`loading || !formData.issue_type || !formData.description ||
!formData.translated`. -/
def submitDisabled1 (loading : Bool) (fd : FormData1) : Bool :=
  loading || fd.issue_type == "" || fd.description == "" || fd.translated == ""

end Report1

namespace Admin

/-- Aggregate statistics fetched by the admin dashboard
(`AdminStats` interface). -/
structure AdminStats where
  total_issues : Nat
  pending_issues : Nat
  in_progress_issues : Nat
  resolved_issues : Nat
  recent_issues : Nat
  response_time_avg : Int
  issue_types : List (String × Nat)
deriving Repr, DecidableEq

/-- An issue as listed on the admin dashboard (`Issue` interface of the
admin screen). -/
structure Issue where
  id : Nat
  title : String
  description : String
  issue_type : String
  status : String
  priority : String
  latitude : Int
  longitude : Int
  address : String
  image_url : String
  reported_by : Nat
  created_at : String
  updated_at : String
deriving Repr, DecidableEq

/-- In-memory state of the admin dashboard: the fetched issue list and the
fetched stats snapshot. -/
structure AdminState where
  issues : List Issue
  stats : Option AdminStats
deriving Repr, DecidableEq

/-- The screens the admin component can render, in the order of its early
returns: login prompt without a cached user, access denied for a cached
non-admin, the loading spinner, or the dashboard. -/
inductive AdminView
  | loginPrompt
  | accessDenied
  | loadingView
  | dashboard
deriving Repr, DecidableEq

/-- The admin component's render gate: `!user` shows the login prompt,
`user.role !== 'admin'` shows access denied, `loading` shows the spinner,
otherwise the dashboard renders. -/
def renderAdmin (user : Option User) (loading : Bool) : AdminView :=
  match user with
  | none => .loginPrompt
  | some u =>
      if u.role ≠ "admin" then .accessDenied
      else if loading then .loadingView else .dashboard

/-- All HTTP requests issued while mounting the admin screen with the given
cached user: `initializeScreen` fetches stats and issues only for a cached
admin, and the `[searchQuery]` effect always runs once at mount with the
empty query, calling `loadAllIssues` immediately. -/
def mountRequests (base tok : String) (cachedUser : Option User) :
    List Request :=
  (match cachedUser with
   | some u =>
       if u.role = "admin" then
         [⟨"GET", statsUrl base, some ("Bearer " ++ tok)⟩,
          ⟨"GET", issuesUrl base "", some ("Bearer " ++ tok)⟩]
       else []
   | none => []) ++
  [⟨"GET", issuesUrl base "", some ("Bearer " ++ tok)⟩]

/-- `fetch`'s `response.ok`: HTTP status in the 2xx range. -/
def respOk (status : Nat) : Bool :=
  decide (200 ≤ status) && decide (status < 300)

/-- The confirmed-press branch of `deleteIssue`: issues the DELETE; on a
2xx response shows the success alert and re-fetches stats and issues
(the list is never patched locally); on a non-2xx response the thrown
error is caught and only the failure alert is shown.  Returns the
resulting in-memory state, the alerts shown, and the requests issued. -/
def deleteIssueConfirmed (base tok q : String) (s : AdminState)
    (issueId : Nat) (status : Nat) :
    AdminState × List (String × String) × List Request :=
  let delReq : Request :=
    ⟨"DELETE", base ++ "/api/issues/" ++ toString issueId,
     some ("Bearer " ++ tok)⟩
  if respOk status then
    (s, [("Success", "Issue removed successfully")],
     [delReq, ⟨"GET", statsUrl base, some ("Bearer " ++ tok)⟩,
      ⟨"GET", issuesUrl base q, some ("Bearer " ++ tok)⟩])
  else
    (s, [("Error", "Failed to remove issue")], [delReq])

/-- Debounced search semantics of the `[searchQuery]` effect.  The state
is the pending `setTimeout`, as its fire time and the query it captured.
Running the effect at time `t` with query `q` first lets a timer whose
fire time has already passed emit its request, then (the cleanup having
cancelled any still-pending timer) either fetches immediately for the
empty query or schedules a fetch 500ms ahead for a non-empty one.
Emitted requests are `(time, url)` pairs. -/
def stepSearch (base : String) (st : Option (Nat × String)) (t : Nat)
    (q : String) : Option (Nat × String) × List (Nat × String) :=
  let fired : List (Nat × String) :=
    match st with
    | some p => if p.1 ≤ t then [(p.1, issuesUrl base p.2)] else []
    | none => []
  if q = "" then (none, fired ++ [(t, issuesUrl base "")])
  else (some (t + 500, q), fired)

/-- Run a sequence of `(time, query)` effect runs from a pending-timer
state, collecting every emitted `(time, url)` request; a timer still
pending at the end of the sequence eventually fires. -/
def runSearch (base : String) :
    Option (Nat × String) → List (Nat × String) → List (Nat × String)
  | st, [] =>
      match st with
      | some p => [(p.1, issuesUrl base p.2)]
      | none => []
  | st, e :: es =>
      (stepSearch base st e.1 e.2).2 ++
        runSearch base (stepSearch base st e.1 e.2).1 es

/-- The requests emitted by a keystroke sequence starting with no pending
timer. -/
def searchRequests (base : String) (events : List (Nat × String)) :
    List (Nat × String) :=
  runSearch base none events

/-- A keystroke sequence is fast after time `t` when each keystroke comes
strictly later than the previous one but within 500ms of it, and no
intermediate query is empty. -/
def fastChain : Nat → List (Nat × String) → Bool
  | _, [] => true
  | t, e :: es =>
      decide (t < e.1) && decide (e.1 < t + 500) && decide (e.2 ≠ "") &&
        fastChain e.1 es

/-- The last keystroke of a sequence, given a default head. -/
def lastEvent : (Nat × String) → List (Nat × String) → (Nat × String)
  | d, [] => d
  | _, e :: es => lastEvent e es

end Admin

namespace Home

/-- An issue as held by the home screen (`Issue` interface of the home
screen). -/
structure Issue where
  id : Nat
  title : String
  description : String
  issue_type : String
  status : String
  latitude : Int
  longitude : Int
  address : String
  created_at : String
deriving Repr, DecidableEq

/-- The home screen's stats card values (`Stats` interface).  `pending`
is computed by integer subtraction and can go negative, hence `Int`. -/
structure Stats where
  total_issues : Int
  resolved_issues : Int
  pending_issues : Int
deriving Repr, DecidableEq

/-- A parsed `GET /api/issues` response body as `loadStats` reads it:
`data.total` (absent or falsy mapped to 0 by `|| 0`) and `data.issues`. -/
structure IssuesResponse where
  total : Option Nat
  issues : Option (List Issue)
deriving Repr, DecidableEq

/-- `loadStats` of the home screen: `total` is taken from the response's
`total` field, `resolved` counts the fetched issues whose status is
`'resolved'`, and `pending` is `total - resolved`. -/
def loadStatsCompute (r : IssuesResponse) : Stats :=
  let total : Int := Int.ofNat (r.total.getD 0)
  let resolved : Int :=
    Int.ofNat (((r.issues.getD []).filter
      (fun i => i.status == "resolved")).length)
  { total_issues := total, resolved_issues := resolved,
    pending_issues := total - resolved }

/-- The home screen's `issue_updated` socket handler: patch the status of
every list entry whose id matches the payload, leave the rest unchanged,
and issue no HTTP request. -/
def onIssueUpdated (issue_id : Nat) (status : String) (issues : List Issue) :
    List Issue × List Request :=
  (issues.map fun issue =>
    if issue.id = issue_id then { issue with status := status } else issue,
   [])

end Home

/-! ## Helper lemmas -/

/-- Mapping a function that fixes every element of a list leaves the list
unchanged. -/
lemma map_fixpoints {α : Type} (f : α → α) :
    ∀ l : List α, (∀ x ∈ l, f x = x) → l.map f = l := by
  intro l h
  induction l with
  | nil => rfl
  | cons a t ih =>
      simp only [List.map_cons]
      rw [h a (by simp), ih (fun x hx => h x (by simp [hx]))]

/-- A filter and its complement split a list's length. -/
lemma length_filter_split {α : Type} (p : α → Bool) (l : List α) :
    (l.filter p).length + (l.filter (fun a => !(p a))).length = l.length := by
  induction l with
  | nil => rfl
  | cons a t ih =>
      cases hp : p a with
      | true => simp [List.filter_cons, hp]; omega
      | false => simp [List.filter_cons, hp]; omega

/-! ## Claim C1 (corrected) -/

/-- Claim C1 counterexample: in the voice-enabled variant the claim
"no POST until translation has succeeded" fails.  With description
`"hello"`, a failed `translate` call (`none`) makes `handleTranslate`
store the original text in `translated`; the subsequent submit press then
issues the POST even though translation never succeeded. -/
theorem submit_posts_after_failed_translation_cx :
    (Report1.handleTranslate
      (⟨"", "hello", "", "pothole", 0, 0, 0⟩ : Report1.FormData1)
      "hello" none).translated = "hello" ∧
    (Report1.submitReport1 (some ⟨1, "Asha", "citizen", "Roads"⟩)
      (Report1.handleTranslate
        (⟨"", "hello", "", "pothole", 0, 0, 0⟩ : Report1.FormData1)
        "hello" none)
      none "http://api" "tok").isPost = true := by decide

/-- Claim C1 (amended): submission is blocked while the translated field
is blank — whenever `translated.trim()` is empty the submit handler issues
no POST, and the submit button is disabled whenever `translated` is the
empty string.  (A failed translation, however, fills `translated` with the
original text, after which submission proceeds.) -/
theorem submit_blocked_while_translation_blank (u : Option User)
    (fd : Report1.FormData1) (photo : Option String) (base tok : String)
    (loading : Bool) :
    (trimString fd.translated = "" →
      (Report1.submitReport1 u fd photo base tok).isPost = false) ∧
    (fd.translated = "" → Report1.submitDisabled1 loading fd = true) := by
  constructor
  · intro h
    unfold Report1.submitReport1
    cases u with
    | none => rfl
    | some x =>
        rw [if_neg (by simp), if_pos (Or.inr (Or.inr h))]
        rfl
  · intro h
    simp [Report1.submitDisabled1, h]

/-- Claim C1 witness: with a blank translated field the submit handler
does not post and the button is disabled. -/
theorem submit_blocked_while_translation_blank_witness :
    (Report1.submitReport1 (some ⟨1, "Asha", "citizen", "Roads"⟩)
      (⟨"t", "d", "", "pothole", 0, 0, 0⟩ : Report1.FormData1)
      none "http://api" "tok").isPost = false ∧
    Report1.submitDisabled1 false
      (⟨"t", "d", "", "pothole", 0, 0, 0⟩ : Report1.FormData1) = true :=
  ⟨(submit_blocked_while_translation_blank
      (some ⟨1, "Asha", "citizen", "Roads"⟩)
      (⟨"t", "d", "", "pothole", 0, 0, 0⟩ : Report1.FormData1)
      none "http://api" "tok" false).1 (by decide),
   (submit_blocked_while_translation_blank
      (some ⟨1, "Asha", "citizen", "Roads"⟩)
      (⟨"t", "d", "", "pothole", 0, 0, 0⟩ : Report1.FormData1)
      none "http://api" "tok" false).2 rfl⟩

/-! ## Claim C6 (confirmed) -/

/-- Claim C6: in both report variants, an empty `issue_type` makes
`submitReport` reject client-side — no POST is issued, and (when a user is
cached, so that the earlier authentication guard does not fire first) the
alert shown is the missing-information alert — regardless of every other
field. -/
theorem empty_issue_type_rejected (u : Option User)
    (fd0 : Report0.FormData0) (fd1 : Report1.FormData1)
    (photo : Option String) (base tok : String)
    (h0 : fd0.issue_type = "") (h1 : fd1.issue_type = "") :
    (Report0.submitReport0 u fd0 photo base tok).isPost = false ∧
    (u ≠ none → Report0.submitReport0 u fd0 photo base tok =
      .alert "Missing Information" "Please fill in all required fields") ∧
    (Report1.submitReport1 u fd1 photo base tok).isPost = false ∧
    (u ≠ none → Report1.submitReport1 u fd1 photo base tok =
      .alert "Missing Information" "Please fill in all required fields") := by
  cases u with
  | none => exact ⟨rfl, fun h => absurd rfl h, rfl, fun h => absurd rfl h⟩
  | some x =>
      have e0 : Report0.submitReport0 (some x) fd0 photo base tok =
          .alert "Missing Information" "Please fill in all required fields" := by
        unfold Report0.submitReport0
        rw [if_neg (by simp), if_pos (Or.inr h0)]
      have e1 : Report1.submitReport1 (some x) fd1 photo base tok =
          .alert "Missing Information" "Please fill in all required fields" := by
        unfold Report1.submitReport1
        rw [if_neg (by simp), if_pos (Or.inl h1)]
      exact ⟨by rw [e0]; rfl, fun _ => e0, by rw [e1]; rfl, fun _ => e1⟩

/-- Claim C6 witness: a fully filled form with empty `issue_type` is
rejected with the missing-information alert in both variants. -/
theorem empty_issue_type_rejected_witness :
    Report0.submitReport0 (some ⟨1, "Asha", "citizen", "Roads"⟩)
      (⟨"Full title", "described", "", 1, 2, 3⟩ : Report0.FormData0)
      (some "p.jpg") "http://api" "tok" =
      .alert "Missing Information" "Please fill in all required fields" ∧
    Report1.submitReport1 (some ⟨1, "Asha", "citizen", "Roads"⟩)
      (⟨"Full title", "described", "translated", "", 1, 2, 3⟩ : Report1.FormData1)
      (some "p.jpg") "http://api" "tok" =
      .alert "Missing Information" "Please fill in all required fields" :=
  ⟨(empty_issue_type_rejected (some ⟨1, "Asha", "citizen", "Roads"⟩)
      (⟨"Full title", "described", "", 1, 2, 3⟩ : Report0.FormData0)
      (⟨"Full title", "described", "translated", "", 1, 2, 3⟩ : Report1.FormData1)
      (some "p.jpg") "http://api" "tok" rfl rfl).2.1 (by decide),
   (empty_issue_type_rejected (some ⟨1, "Asha", "citizen", "Roads"⟩)
      (⟨"Full title", "described", "", 1, 2, 3⟩ : Report0.FormData0)
      (⟨"Full title", "described", "translated", "", 1, 2, 3⟩ : Report1.FormData1)
      (some "p.jpg") "http://api" "tok" rfl rfl).2.2.2 (by decide)⟩

/-! ## Claim C8 (confirmed) -/

/-- Claim C8: when the `translate` call for a non-blank description fails,
`handleTranslate` stores the original text unchanged in the translated
field, and the flow is not blocked — with a cached user and an issue type
chosen, the subsequent submit issues the POST as if translation had
produced that text. -/
theorem translate_failure_fallback (u : Option User)
    (fd : Report1.FormData1) (photo : Option String) (base tok : String)
    (h : trimString fd.description ≠ "") :
    (Report1.handleTranslate fd fd.description none).translated =
      fd.description ∧
    (u ≠ none → fd.issue_type ≠ "" →
      (Report1.submitReport1 u (Report1.handleTranslate fd fd.description none)
        photo base tok).isPost = true) := by
  have hft : Report1.handleTranslate fd fd.description none =
      { fd with translated := fd.description } := by
    unfold Report1.handleTranslate
    rw [if_neg h]
  constructor
  · rw [hft]
  · intro hu hty
    rw [hft]
    cases u with
    | none => exact absurd rfl hu
    | some x =>
        unfold Report1.submitReport1
        rw [if_neg (by simp), if_neg (by push_neg; exact ⟨hty, h, h⟩)]
        rfl

/-- Claim C8 witness: a concrete failed translation passes the original
description through and submission proceeds. -/
theorem translate_failure_fallback_witness :
    (Report1.handleTranslate
      (⟨"", "hole near school", "", "pothole", 0, 0, 0⟩ : Report1.FormData1)
      "hole near school" none).translated = "hole near school" ∧
    (Report1.submitReport1 (some ⟨1, "Asha", "citizen", "Roads"⟩)
      (Report1.handleTranslate
        (⟨"", "hole near school", "", "pothole", 0, 0, 0⟩ : Report1.FormData1)
        "hole near school" none)
      none "http://api" "tok").isPost = true :=
  ⟨(translate_failure_fallback (some ⟨1, "Asha", "citizen", "Roads"⟩)
      (⟨"", "hole near school", "", "pothole", 0, 0, 0⟩ : Report1.FormData1)
      none "http://api" "tok" (by decide)).1,
   (translate_failure_fallback (some ⟨1, "Asha", "citizen", "Roads"⟩)
      (⟨"", "hole near school", "", "pothole", 0, 0, 0⟩ : Report1.FormData1)
      none "http://api" "tok" (by decide)).2 (by decide) (by decide)⟩

/-! ## Claim C2 (corrected) -/

/-- Claim C2 counterexample: an interaction sequence on the plain report
screen in which both the camera and the location permission were denied,
yet pressing Take Photo opens the camera, a picture is captured, and the
submit press issues the POST — nothing is blocked on the recorded
permission state. -/
theorem denied_permissions_do_not_block_cx :
    (Report0.runR "http://api" Report0.initRState
      [.cameraPermissionResult "denied", .locationResult "denied" 0 0 0,
       .userLoaded (some ⟨1, "Asha", "citizen", "Roads"⟩),
       .setIssueType "pothole", .setTitle "Big pothole",
       .pressTakePhoto]).cameraVisible = true ∧
    (Report0.runR "http://api" Report0.initRState
      [.cameraPermissionResult "denied", .locationResult "denied" 0 0 0,
       .userLoaded (some ⟨1, "Asha", "citizen", "Roads"⟩),
       .setIssueType "pothole", .setTitle "Big pothole",
       .pressTakePhoto, .pictureTaken "photo.jpg",
       .pressSubmit "tok"]).hasCameraPermission = some false ∧
    (Report0.runR "http://api" Report0.initRState
      [.cameraPermissionResult "denied", .locationResult "denied" 0 0 0,
       .userLoaded (some ⟨1, "Asha", "citizen", "Roads"⟩),
       .setIssueType "pothole", .setTitle "Big pothole",
       .pressTakePhoto, .pictureTaken "photo.jpg",
       .pressSubmit "tok"]).capturedPhoto = some "photo.jpg" ∧
    (Report0.runR "http://api" Report0.initRState
      [.cameraPermissionResult "denied", .locationResult "denied" 0 0 0,
       .userLoaded (some ⟨1, "Asha", "citizen", "Roads"⟩),
       .setIssueType "pothole", .setTitle "Big pothole",
       .pressTakePhoto, .pictureTaken "photo.jpg",
       .pressSubmit "tok"]).requests =
      [⟨"POST", "http://api/api/issues", some "Bearer tok"⟩] := by decide

/-- Claim C2 (amended): camera and location permission are requested at
mount and their results recorded, but neither photo capture nor submission
is gated on them — even with a denied camera permission recorded, pressing
Take Photo opens the camera, and pressing submit issues the POST whenever
a user is cached and a non-blank title and an issue type are present. -/
theorem denied_permissions_do_not_block (base tok : String)
    (s : Report0.RState)
    (_hperm : s.hasCameraPermission = some false)
    (hu : s.user ≠ none)
    (ht : trimString s.formData.title ≠ "")
    (hty : s.formData.issue_type ≠ "") :
    (Report0.rstep base s .pressTakePhoto).cameraVisible = true ∧
    (Report0.rstep base s (.pressSubmit tok)).requests =
      s.requests ++
        [⟨"POST", base ++ "/api/issues", some ("Bearer " ++ tok)⟩] := by
  refine ⟨rfl, ?_⟩
  have htne : s.formData.title ≠ "" := by
    intro hh
    apply ht
    rw [hh]
    rfl
  have hdis : Report0.submitDisabled0 false s.formData = false := by
    simp [Report0.submitDisabled0, htne, hty]
  have hsub : Report0.submitReport0 s.user s.formData s.capturedPhoto
      base tok =
      .post ⟨"POST", base ++ "/api/issues", some ("Bearer " ++ tok)⟩
        (Report0.postBody0 s.formData s.capturedPhoto) := by
    unfold Report0.submitReport0
    rw [if_neg (by simp [Option.isNone_iff_eq_none]; exact hu),
        if_neg (by push_neg; exact ⟨ht, hty⟩)]
  simp only [Report0.rstep]
  rw [hdis, hsub]
  simp

/-- Claim C2 witness: a concrete state with a denied camera permission in
which Take Photo opens the camera and submit posts. -/
theorem denied_permissions_do_not_block_witness :
    (Report0.rstep "http://api"
      (⟨some false, false, none, none, some ⟨1, "Asha", "citizen", "Roads"⟩,
        ⟨"Big pothole", "", "pothole", 0, 0, 0⟩, [], []⟩ : Report0.RState)
      .pressTakePhoto).cameraVisible = true ∧
    (Report0.rstep "http://api"
      (⟨some false, false, none, none, some ⟨1, "Asha", "citizen", "Roads"⟩,
        ⟨"Big pothole", "", "pothole", 0, 0, 0⟩, [], []⟩ : Report0.RState)
      (.pressSubmit "tok")).requests =
      [] ++ [⟨"POST", "http://api" ++ "/api/issues",
        some ("Bearer " ++ "tok")⟩] :=
  denied_permissions_do_not_block "http://api" "tok"
    (⟨some false, false, none, none, some ⟨1, "Asha", "citizen", "Roads"⟩,
      ⟨"Big pothole", "", "pothole", 0, 0, 0⟩, [], []⟩ : Report0.RState)
    rfl (by decide) (by decide) (by decide)

/-! ## Claim C3 (corrected) -/

/-- Claim C3 counterexample: with no cached user the admin screen renders
the login prompt and issues no stats fetch, but the claim that no
issue-list fetch is issued fails — the `[searchQuery]` effect runs once at
mount with the empty query and fetches the issue list unconditionally. -/
theorem non_admin_mount_fetches_issue_list_cx :
    Admin.renderAdmin none false = Admin.AdminView.loginPrompt ∧
    Admin.mountRequests "http://api" "tok" none =
      [⟨"GET", "http://api/api/issues", some "Bearer tok"⟩] := by decide

/-- Claim C3 (amended): without a cached admin user (no user, or a user
whose role is not `admin`) the admin screen renders the login-prompt or
access-denied state and `initializeScreen` fetches nothing, but the mount
still issues exactly one issue-list request from the `[searchQuery]`
effect; in particular the aggregate stats are never fetched. -/
theorem non_admin_gate (base tok : String) (u : Option User) (l : Bool)
    (h : ∀ x, u = some x → x.role ≠ "admin") :
    (Admin.renderAdmin u l = Admin.AdminView.loginPrompt ∨
     Admin.renderAdmin u l = Admin.AdminView.accessDenied) ∧
    Admin.mountRequests base tok u =
      [⟨"GET", issuesUrl base "", some ("Bearer " ++ tok)⟩] ∧
    issuesUrl base "" = base ++ "/api/issues" := by
  cases u with
  | none => exact ⟨Or.inl rfl, rfl, rfl⟩
  | some x =>
      have hr := h x rfl
      refine ⟨Or.inr ?_, ?_, rfl⟩
      · simp only [Admin.renderAdmin]
        rw [if_pos hr]
      · simp only [Admin.mountRequests]
        rw [if_neg hr]
        rfl

/-- Claim C3 witness: a cached non-admin user sees access denied while the
mount issues exactly the one unconditional issue-list request. -/
theorem non_admin_gate_witness :
    (Admin.renderAdmin (some ⟨2, "Bob", "citizen", "Roads"⟩) false =
        Admin.AdminView.loginPrompt ∨
     Admin.renderAdmin (some ⟨2, "Bob", "citizen", "Roads"⟩) false =
        Admin.AdminView.accessDenied) ∧
    Admin.mountRequests "http://api" "tok" (some ⟨2, "Bob", "citizen", "Roads"⟩) =
      [⟨"GET", issuesUrl "http://api" "", some ("Bearer " ++ "tok")⟩] ∧
    issuesUrl "http://api" "" = "http://api" ++ "/api/issues" :=
  non_admin_gate "http://api" "tok" (some ⟨2, "Bob", "citizen", "Roads"⟩) false
    (by intro x hx; cases hx; decide)

/-! ## Claim C4 (confirmed) -/

/-- Claim C4: the home screen's `issue_updated` handler issues no HTTP
request, preserves the list's length, patches exactly the `status` field
of every entry whose id matches the payload (all other fields equal), and
leaves every non-matching entry — and, when no entry matches, the whole
list — exactly unchanged. -/
theorem issue_updated_frame (issue_id : Nat) (status : String)
    (issues : List Home.Issue) :
    (Home.onIssueUpdated issue_id status issues).2 = [] ∧
    (Home.onIssueUpdated issue_id status issues).1.length = issues.length ∧
    (∀ k (h : k < issues.length)
        (h2 : k < (Home.onIssueUpdated issue_id status issues).1.length),
      ((issues.get ⟨k, h⟩).id = issue_id →
        ((Home.onIssueUpdated issue_id status issues).1.get ⟨k, h2⟩).status =
          status ∧
        ((Home.onIssueUpdated issue_id status issues).1.get ⟨k, h2⟩).id =
          (issues.get ⟨k, h⟩).id ∧
        ((Home.onIssueUpdated issue_id status issues).1.get ⟨k, h2⟩).title =
          (issues.get ⟨k, h⟩).title ∧
        ((Home.onIssueUpdated issue_id status issues).1.get ⟨k, h2⟩).description =
          (issues.get ⟨k, h⟩).description ∧
        ((Home.onIssueUpdated issue_id status issues).1.get ⟨k, h2⟩).issue_type =
          (issues.get ⟨k, h⟩).issue_type ∧
        ((Home.onIssueUpdated issue_id status issues).1.get ⟨k, h2⟩).latitude =
          (issues.get ⟨k, h⟩).latitude ∧
        ((Home.onIssueUpdated issue_id status issues).1.get ⟨k, h2⟩).longitude =
          (issues.get ⟨k, h⟩).longitude ∧
        ((Home.onIssueUpdated issue_id status issues).1.get ⟨k, h2⟩).address =
          (issues.get ⟨k, h⟩).address ∧
        ((Home.onIssueUpdated issue_id status issues).1.get ⟨k, h2⟩).created_at =
          (issues.get ⟨k, h⟩).created_at) ∧
      ((issues.get ⟨k, h⟩).id ≠ issue_id →
        (Home.onIssueUpdated issue_id status issues).1.get ⟨k, h2⟩ =
          issues.get ⟨k, h⟩)) ∧
    ((∀ i ∈ issues, i.id ≠ issue_id) →
      (Home.onIssueUpdated issue_id status issues).1 = issues) := by
  refine ⟨rfl, by simp [Home.onIssueUpdated], ?_, ?_⟩
  · intro k h h2
    have hget : (Home.onIssueUpdated issue_id status issues).1.get ⟨k, h2⟩ =
        (fun issue => if issue.id = issue_id then
          { issue with status := status } else issue) (issues.get ⟨k, h⟩) := by
      simp [Home.onIssueUpdated, List.get_eq_getElem, List.getElem_map]
    constructor
    · intro hid
      rw [hget]
      simp only [List.get_eq_getElem] at hid
      simp [hid]
    · intro hid
      rw [hget]
      simp only [List.get_eq_getElem] at hid
      simp [hid]
  · intro hall
    exact map_fixpoints _ issues (fun i hi => if_neg (hall i hi))

/-- Claim C4 witness: a payload whose id matches no entry leaves the list
exactly unchanged. -/
theorem issue_updated_frame_witness :
    (Home.onIssueUpdated 5 "resolved"
      [⟨7, "t", "d", "pothole", "reported", 0, 0, "addr", "now"⟩]).1 =
      [⟨7, "t", "d", "pothole", "reported", 0, 0, "addr", "now"⟩] :=
  (issue_updated_frame 5 "resolved"
    [⟨7, "t", "d", "pothole", "reported", 0, 0, "addr", "now"⟩]).2.2.2
    (by decide)

/-! ## Claim C5 (confirmed) -/

/-- Claim C5: a non-2xx response to the admin delete action leaves the
in-memory state (issue list and stats) exactly as before — every issue
still present — and shows only the error alert, whose message is
non-empty. -/
theorem delete_failure_preserves_state (base tok q : String)
    (s : Admin.AdminState) (issueId httpStatus : Nat)
    (h : Admin.respOk httpStatus = false) :
    (Admin.deleteIssueConfirmed base tok q s issueId httpStatus).1 = s ∧
    (∀ i ∈ s.issues,
      i ∈ (Admin.deleteIssueConfirmed base tok q s issueId httpStatus).1.issues) ∧
    (Admin.deleteIssueConfirmed base tok q s issueId httpStatus).2.1 =
      [("Error", "Failed to remove issue")] ∧
    "Failed to remove issue" ≠ "" := by
  have hd : Admin.deleteIssueConfirmed base tok q s issueId httpStatus =
      (s, [("Error", "Failed to remove issue")],
       [⟨"DELETE", base ++ "/api/issues/" ++ toString issueId,
         some ("Bearer " ++ tok)⟩]) := by
    simp [Admin.deleteIssueConfirmed, h]
  refine ⟨by rw [hd], ?_, by rw [hd], by decide⟩
  intro i hi
  rw [hd]
  exact hi

/-- Claim C5 witness: a 404 delete response leaves a one-issue state
untouched and shows the error alert. -/
theorem delete_failure_preserves_state_witness :
    (Admin.deleteIssueConfirmed "http://api" "tok" ""
      (⟨[⟨7, "t", "d", "pothole", "reported", "low", 0, 0, "a", "", 1, "c",
          "u"⟩], none⟩ : Admin.AdminState) 7 404).1 =
      (⟨[⟨7, "t", "d", "pothole", "reported", "low", 0, 0, "a", "", 1, "c",
          "u"⟩], none⟩ : Admin.AdminState) ∧
    (∀ i ∈ (⟨[⟨7, "t", "d", "pothole", "reported", "low", 0, 0, "a", "", 1,
        "c", "u"⟩], none⟩ : Admin.AdminState).issues,
      i ∈ (Admin.deleteIssueConfirmed "http://api" "tok" ""
        (⟨[⟨7, "t", "d", "pothole", "reported", "low", 0, 0, "a", "", 1, "c",
            "u"⟩], none⟩ : Admin.AdminState) 7 404).1.issues) ∧
    (Admin.deleteIssueConfirmed "http://api" "tok" ""
      (⟨[⟨7, "t", "d", "pothole", "reported", "low", 0, 0, "a", "", 1, "c",
          "u"⟩], none⟩ : Admin.AdminState) 7 404).2.1 =
      [("Error", "Failed to remove issue")] ∧
    "Failed to remove issue" ≠ "" :=
  delete_failure_preserves_state "http://api" "tok" ""
    (⟨[⟨7, "t", "d", "pothole", "reported", "low", 0, 0, "a", "", 1, "c",
        "u"⟩], none⟩ : Admin.AdminState) 7 404 rfl

/-! ## Claims C7 and C10: debounce lemmas -/

/-- Unfolding `runSearch` on a cons. -/
lemma runSearch_cons (base : String) (st : Option (Nat × String))
    (e : Nat × String) (es : List (Nat × String)) :
    Admin.runSearch base st (e :: es) =
      (Admin.stepSearch base st e.1 e.2).2 ++
        Admin.runSearch base (Admin.stepSearch base st e.1 e.2).1 es := rfl

/-- A non-empty query scheduled while a not-yet-fired timer is pending
cancels that timer and schedules its own. -/
lemma stepSearch_nonempty_noFire (base pq : String) (ft : Nat)
    (e : Nat × String) (h1 : ¬ ft ≤ e.1) (h2 : e.2 ≠ "") :
    Admin.stepSearch base (some (ft, pq)) e.1 e.2 =
      (some (e.1 + 500, e.2), []) := by
  simp [Admin.stepSearch, h1, h2]

/-- A non-empty query arriving with no pending timer schedules a fetch
500ms ahead and emits nothing yet. -/
lemma stepSearch_none_nonempty (base : String) (e : Nat × String)
    (h : e.2 ≠ "") :
    Admin.stepSearch base none e.1 e.2 = (some (e.1 + 500, e.2), []) := by
  simp [Admin.stepSearch, h]

/-- Splitting a `fastChain` hypothesis on a cons. -/
lemma fastChain_cons_iff (t : Nat) (e : Nat × String)
    (es : List (Nat × String)) :
    Admin.fastChain t (e :: es) = true ↔
      t < e.1 ∧ e.1 < t + 500 ∧ e.2 ≠ "" ∧ Admin.fastChain e.1 es = true := by
  simp [Admin.fastChain, and_assoc]

/-- A fast keystroke chain run against a pending timer emits exactly one
request: the fetch for the last query, 500ms after the last keystroke. -/
lemma runSearch_pending_fast (base : String) :
    ∀ (es : List (Nat × String)) (pq : String) (t : Nat) (e : Nat × String),
      e.1 < t + 500 → e.2 ≠ "" → Admin.fastChain e.1 es = true →
      Admin.runSearch base (some (t + 500, pq)) (e :: es) =
        [((Admin.lastEvent e es).1 + 500,
          issuesUrl base (Admin.lastEvent e es).2)] := by
  intro es
  induction es with
  | nil =>
      intro pq t e h1 h2 _
      rw [runSearch_cons, stepSearch_nonempty_noFire base pq _ e (by omega) h2]
      rfl
  | cons e2 es2 ih =>
      intro pq t e h1 h2 hch
      rw [fastChain_cons_iff] at hch
      obtain ⟨ha, hb, hc, hd⟩ := hch
      rw [runSearch_cons, stepSearch_nonempty_noFire base pq _ e (by omega) h2]
      exact ih e.2 e.1 e2 hb hc hd

/-! ## Claim C7 (corrected) -/

/-- Claim C7 counterexample: a keystroke sequence ending in "pothole" in
which the intermediate query rested for more than 500ms issues two
requests, the first carrying the intermediate query — refuting "exactly
one outgoing request" for arbitrary keystroke sequences. -/
theorem slow_typing_issues_two_requests_cx :
    Admin.searchRequests "http://api" [(0, "pot"), (600, "pothole")] =
      [(500, "http://api/api/issues?search=pot"),
       (1100, "http://api/api/issues?search=pothole")] ∧
    ¬ (Admin.searchRequests "http://api"
        [(0, "pot"), (600, "pothole")]).length = 1 := by decide

/-- Claim C7 (amended): for every keystroke sequence ending with the query
"pothole" in which consecutive keystrokes arrive within 500ms of each
other and no intermediate query is empty, exactly one issue-list request
is issued; it carries `search=pothole` URL-encoded and fires 500ms after
the last keystroke. -/
theorem debounced_search_single_request (base : String) (e : Nat × String)
    (es : List (Nat × String)) (hq : e.2 ≠ "")
    (hch : Admin.fastChain e.1 es = true)
    (hlast : (Admin.lastEvent e es).2 = "pothole") :
    Admin.searchRequests base (e :: es) =
      [((Admin.lastEvent e es).1 + 500,
        base ++ "/api/issues?search=pothole")] ∧
    encodeURIComponent "pothole" = "pothole" := by
  have hurl : issuesUrl base "pothole" = base ++ "/api/issues?search=pothole" := by
    unfold issuesUrl
    rw [if_neg (by decide),
        (by decide : encodeURIComponent "pothole" = "pothole"),
        String.append_assoc, String.append_assoc,
        (by decide : ("/api/issues" ++ ("?search=" ++ "pothole") : String) =
          "/api/issues?search=pothole")]
  refine ⟨?_, by decide⟩
  cases es with
  | nil =>
      have he : e.2 = "pothole" := hlast
      unfold Admin.searchRequests
      rw [runSearch_cons, stepSearch_none_nonempty base e hq]
      show [(e.1 + 500, issuesUrl base e.2)] = _
      rw [he, hurl]
      rfl
  | cons e2 es2 =>
      rw [fastChain_cons_iff] at hch
      obtain ⟨ha, hb, hc, hd⟩ := hch
      unfold Admin.searchRequests
      rw [runSearch_cons, stepSearch_none_nonempty base e hq]
      show Admin.runSearch base (some (e.1 + 500, e.2)) (e2 :: es2) = _
      rw [runSearch_pending_fast base es2 e.2 e.1 e2 hb hc hd]
      have he : (Admin.lastEvent e2 es2).2 = "pothole" := hlast
      rw [he, hurl]
      rfl

/-- Claim C7 witness: typing "pot" then "pothole" 100ms later issues
exactly the one debounced request, 500ms after the last keystroke. -/
theorem debounced_search_single_request_witness :
    Admin.fastChain 0 [(100, "pothole")] = true ∧
    Admin.searchRequests "http://api" [(0, "pot"), (100, "pothole")] =
      [(600, "http://api" ++ "/api/issues?search=pothole")] :=
  ⟨by decide,
   (debounced_search_single_request "http://api" (0, "pot") [(100, "pothole")]
     (by decide) (by decide) (by decide)).1⟩

/-! ## Claim C9 (corrected) -/

/-- Claim C9 counterexample: `loadStats` takes `total` from the response's
`total` field rather than the list, so with `total = 10` and a single
resolved issue in the list, `pending_issues` is `9` while the number of
fetched non-resolved issues is `0` — refuting "pending_issues equals the
number of non-resolved fetched issues" for arbitrary responses. -/
theorem pending_stat_not_list_count_cx :
    (Home.loadStatsCompute
      (⟨some 10, some [⟨1, "t", "d", "pothole", "resolved", 0, 0, "a", "c"⟩]⟩ :
        Home.IssuesResponse)).pending_issues ≠
      Int.ofNat ((((⟨some 10,
        some [⟨1, "t", "d", "pothole", "resolved", 0, 0, "a", "c"⟩]⟩ :
          Home.IssuesResponse)).issues.getD []).filter
        (fun i => !(i.status == "resolved"))).length := by decide

/-- Claim C9 (amended): the home screen's stats are computed as follows —
`resolved_issues` counts the fetched issues whose status is `resolved`
(client-side filtering), `total_issues` is the response's `total` field
(0 when absent), not the list length, and `pending_issues` is their
difference, so `total = resolved + pending` always holds, while
`pending_issues` equals the number of non-resolved fetched issues exactly
when the response's `total` agrees with the length of the fetched list. -/
theorem home_stats_computation (r : Home.IssuesResponse) :
    (Home.loadStatsCompute r).resolved_issues =
      Int.ofNat (((r.issues.getD []).filter
        (fun i => i.status == "resolved")).length) ∧
    (Home.loadStatsCompute r).total_issues = Int.ofNat (r.total.getD 0) ∧
    (Home.loadStatsCompute r).total_issues =
      (Home.loadStatsCompute r).resolved_issues +
        (Home.loadStatsCompute r).pending_issues ∧
    (r.total.getD 0 = (r.issues.getD []).length →
      (Home.loadStatsCompute r).pending_issues =
        Int.ofNat (((r.issues.getD []).filter
          (fun i => !(i.status == "resolved"))).length)) := by
  refine ⟨rfl, rfl, ?_, ?_⟩
  · simp only [Home.loadStatsCompute]
    omega
  · intro h
    have hsplit : (((r.issues.getD []).filter
          (fun i => i.status == "resolved")).length) +
        (((r.issues.getD []).filter
          (fun i => !(i.status == "resolved"))).length) =
        (r.issues.getD []).length :=
      length_filter_split (fun i => i.status == "resolved") (r.issues.getD [])
    simp only [Home.loadStatsCompute, Int.ofNat_eq_coe]
    omega

/-- Claim C9 witness: when the response's `total` matches the fetched
list, `pending_issues` equals the count of non-resolved issues. -/
theorem home_stats_computation_witness :
    (⟨some 1, some [⟨1, "t", "d", "pothole", "resolved", 0, 0, "a", "c"⟩]⟩ :
      Home.IssuesResponse).total.getD 0 =
      ((⟨some 1, some [⟨1, "t", "d", "pothole", "resolved", 0, 0, "a", "c"⟩]⟩ :
        Home.IssuesResponse).issues.getD []).length ∧
    (Home.loadStatsCompute
      (⟨some 1, some [⟨1, "t", "d", "pothole", "resolved", 0, 0, "a", "c"⟩]⟩ :
        Home.IssuesResponse)).pending_issues =
      Int.ofNat ((((⟨some 1,
        some [⟨1, "t", "d", "pothole", "resolved", 0, 0, "a", "c"⟩]⟩ :
          Home.IssuesResponse)).issues.getD []).filter
        (fun i => !(i.status == "resolved"))).length :=
  ⟨by decide,
   (home_stats_computation
     (⟨some 1, some [⟨1, "t", "d", "pothole", "resolved", 0, 0, "a", "c"⟩]⟩ :
       Home.IssuesResponse)).2.2.2 (by decide)⟩

/-! ## Claim C10 (confirmed) -/

/-- Claim C10: whenever the admin search query is the empty string — at
mount, or immediately after the search box is cleared with any timer state
pending — the issue-list request is issued at once (at the very time of
the effect run, with no 500ms delay, and with no timer left pending), and
its URL is exactly `${API_BASE_URL}/api/issues`, whose appended path
contains no query string at all. -/
theorem empty_query_fetches_immediately (base : String)
    (st : Option (Nat × String)) (t : Nat) :
    (Admin.stepSearch base st t "").1 = none ∧
    (Admin.stepSearch base st t "").2.getLast? =
      some (t, base ++ "/api/issues") ∧
    Admin.searchRequests base [(t, "")] = [(t, base ++ "/api/issues")] ∧
    issuesUrl base "" = base ++ "/api/issues" ∧
    ¬ (Char.ofNat 63 ∈ "/api/issues".data) := by
  refine ⟨?_, ?_, ?_, rfl, by decide⟩
  · simp [Admin.stepSearch]
  · simp [Admin.stepSearch, List.getLast?_concat, issuesUrl]
  · rfl

end CiviConnect
